import Mathlib

/-!
Shallow embedding of the uwmarketplace front end's item-submission workflow
(`src/components/SellItem.jsx`) and session gate (`src/components/PrivateRoute.jsx`).

JavaScript strings are modelled as Lean `String`; the JS truthiness test
`!s.trim()` is modelled by `isBlank` (every character is whitespace); the
price regex `^\d+(\.\d{1,2})?$` is modelled by a recursive matcher over the
character list; `parseFloat`/`Number` on a regex-matching price string is
modelled exactly by the rational `priceValue` (on such strings the decimal
value is what both JS functions denote, and comparison with 0 agrees with the
double-precision comparison since rounding preserves the sign).  The two
asynchronous Firebase calls (storage upload, Firestore `addDoc`) are modelled
as an effect list emitted by `handleSubmit`, with the upload's outcome and the
`getDownloadURL` resolution supplied as parameters.
-/

/-- A JS string is blank exactly when `s.trim()` is the empty string, i.e.
every character is whitespace (so `!s.trim()` is true in JS). -/
def isBlank (s : String) : Bool :=
  s.data.all Char.isWhitespace

/-- The optional fractional part of the price regex: `(\.\d{1,2})?$`. -/
def fracPart : List Char → Bool
  | [] => true
  | ['.', a] => a.isDigit
  | ['.', a, b] => a.isDigit && b.isDigit
  | _ => false

/-- After the leading digit: consume further digits of `\d+`, then require
the optional fractional part. -/
def restDigitsThenFrac : List Char → Bool
  | [] => true
  | c :: cs => if c.isDigit then restDigitsThenFrac cs else fracPart (c :: cs)

/-- `^\d+(\.\d{1,2})?$` on a character list: at least one leading digit,
then digits, then optionally a dot with one or two digits. -/
def matchesPriceList : List Char → Bool
  | [] => false
  | c :: cs => c.isDigit && restDigitsThenFrac cs

/-- The test `/^\d+(\.\d{1,2})?$/.test(price)` of SellItem.jsx line 170. -/
def matchesPriceRegex (s : String) : Bool :=
  matchesPriceList s.data

/-- Numeric value of a list of decimal digits, most significant first. -/
def natOfDigits (l : List Char) : Nat :=
  l.foldl (fun a c => 10 * a + (c.toNat - '0'.toNat)) 0

/-- The numeric value `parseFloat(price)` (equivalently `Number(price)`)
denotes on a string matching the price regex: integer part plus fractional
part scaled by the fraction's length. -/
def priceValue (s : String) : ℚ :=
  let intPart := s.data.takeWhile Char.isDigit
  match s.data.dropWhile Char.isDigit with
  | '.' :: fs => (natOfDigits intPart : ℚ) + (natOfDigits fs : ℚ) / (10 ^ fs.length : ℚ)
  | _ => (natOfDigits intPart : ℚ)

/-- The full rejection condition of SellItem.jsx line 170:
`!price.trim() || !/^\d+(\.\d{1,2})?$/.test(price) || parseFloat(price) <= 0`. -/
def priceRejected (p : String) : Bool :=
  isBlank p || !matchesPriceRegex p || decide (priceValue p ≤ 0)

/-- The date-of-purchase triple held in the `date` state
(`useState(\x7b day: '', month: '', year: '' \x7d)`). -/
structure DateTriple where
  day : String
  month : String
  year : String
deriving DecidableEq, Repr

/-- The complete `useState` state of the `SellItem` component: the draft
fields, the two inline-edit toggles, and the eight error slots. -/
structure FormState where
  selectedFile : Option String
  selectedCondition : Option String
  title : String
  description : String
  date : DateTriple
  price : String
  location : String
  name : String
  email : String
  selectedCategory : String
  isEditingName : Bool
  isEditingEmail : Bool
  titleError : String
  descriptionError : String
  priceError : String
  locationError : String
  conditionError : String
  categoryError : String
  nameError : String
  emailError : String
deriving DecidableEq, Repr

/-- Initial state of every `useState` hook of `SellItem`. -/
def initialFormState : FormState where
  selectedFile := none
  selectedCondition := none
  title := ""
  description := ""
  date := { day := "", month := "", year := "" }
  price := ""
  location := ""
  name := ""
  email := ""
  selectedCategory := ""
  isEditingName := false
  isEditingEmail := false
  titleError := ""
  descriptionError := ""
  priceError := ""
  locationError := ""
  conditionError := ""
  categoryError := ""
  nameError := ""
  emailError := ""

/-- The `serverTimestamp()` sentinel passed to `addDoc`: the actual timestamp
is assigned by the server, so the form only ever passes this marker. -/
inductive ServerTimestamp where
  | server
deriving DecidableEq, Repr

/-- The document written to the `products` collection by `addDoc`
(SellItem.jsx lines 227-240).  `price` carries the rational value that
`Number(price)` denotes on the already-validated price string. -/
structure ProductRecord where
  title : String
  description : String
  category : String
  dateOfPurchase : String
  condition : String
  price : ℚ
  location : String
  isSold : Bool
  imageUrl : String
  createdAt : ServerTimestamp
  sellerName : String
  sellerEmail : String
deriving DecidableEq, Repr

/-- The externally observable actions of the submit pipeline: blocking
notifications (`alert`), the storage upload, the Firestore record creation,
and navigation. -/
inductive Effect where
  | alert (msg : String)
  | uploadAsset (key : String)
  | createRecord (record : ProductRecord)
  | navigate (path : String)
deriving DecidableEq, Repr

/-- Whether the upload reaches its error callback or its completion
callback. -/
inductive UploadOutcome where
  | success
  | failure
deriving DecidableEq, Repr

/-- The storage key `products/${Date.now()}-${selectedFile.name}` of
SellItem.jsx line 208. -/
def uploadKey (now : Nat) (fileName : String) : String :=
  "products/" ++ toString now ++ "-" ++ fileName

/-- The "Clear previous errors" block of SellItem.jsx lines 147-153: the six
product-field slots are reset; the name and email slots are not touched. -/
def clearFieldErrors (s : FormState) : FormState :=
  { s with
    titleError := ""
    descriptionError := ""
    priceError := ""
    locationError := ""
    conditionError := ""
    categoryError := "" }

/-- The validation block of SellItem.jsx lines 147-201: clear the six slots,
then run each check in sequence, each setting its own message and the shared
`hasError` flag, never aborting early.  Each check reads the captured state
variables of `s` (`title`, `description`, ...), which no `setXError` call
changes; only the error slots are threaded through. -/
def runValidation (s : FormState) : FormState × Bool :=
  let s0 := clearFieldErrors s
  let r1 := if isBlank s.title then ({ s0 with titleError := "Title is required" }, true)
            else (s0, false)
  let r2 := if isBlank s.description then
              ({ r1.1 with descriptionError := "Description is required" }, true)
            else r1
  let r3 := if priceRejected s.price then
              ({ r2.1 with
                 priceError := "Enter a valid price (positive number, up to two decimals)" }, true)
            else r2
  let r4 := if isBlank s.location then
              ({ r3.1 with locationError := "Location is required" }, true)
            else r3
  let r5 := if s.selectedCondition = none then
              ({ r4.1 with conditionError := "Please select a condition for the product." }, true)
            else r4
  let r6 := if s.selectedCategory = "" then
              ({ r5.1 with categoryError := "Please select a category for the product." }, true)
            else r5
  let r7 := if s.isEditingEmail then
              ({ r6.1 with emailError := "Please enter a valid email" }, true)
            else r6
  let r8 := if s.isEditingName then
              ({ r7.1 with nameError := "Please enter a valid name" }, true)
            else r7
  r8

/-- The state the validation block leaves behind, slot by slot: each of the
six product-field slots holds its own check's message or is clear, and the
name/email slots are overwritten only by the inline-edit checks. -/
def checkedState (s : FormState) : FormState :=
  { s with
    titleError := if isBlank s.title then "Title is required" else ""
    descriptionError := if isBlank s.description then "Description is required" else ""
    priceError :=
      if priceRejected s.price then "Enter a valid price (positive number, up to two decimals)"
      else ""
    locationError := if isBlank s.location then "Location is required" else ""
    conditionError :=
      if s.selectedCondition = none then "Please select a condition for the product." else ""
    categoryError :=
      if s.selectedCategory = "" then "Please select a category for the product." else ""
    emailError := if s.isEditingEmail then "Please enter a valid email" else s.emailError
    nameError := if s.isEditingName then "Please enter a valid name" else s.nameError }

/-- The disjunction of all eight failure conditions of the validation
block: the final value of its `hasError` flag. -/
def hasErrorB (s : FormState) : Bool :=
  isBlank s.title || isBlank s.description || priceRejected s.price || isBlank s.location ||
    decide (s.selectedCondition = none) || decide (s.selectedCategory = "") ||
    s.isEditingEmail || s.isEditingName

/-- The record composed by `addDoc` from the draft and the resolved download
location (SellItem.jsx lines 227-240).  `dateOfPurchase` is the template
string over the `date` triple; `isSold` is initialised `false`. -/
def mkRecord (s : FormState) (downloadURL : String) : ProductRecord where
  title := s.title
  description := s.description
  category := s.selectedCategory
  dateOfPurchase := s.date.month ++ "/" ++ s.date.day ++ "/" ++ s.date.year
  condition := s.selectedCondition.getD ""
  price := priceValue s.price
  location := s.location
  isSold := false
  imageUrl := downloadURL
  createdAt := ServerTimestamp.server
  sellerName := s.name
  sellerEmail := s.email

/-- The "clear all form details after submission" block of SellItem.jsx
lines 244-250: title, description, date, price, location, file and condition
are reset; nothing else is. -/
def resetAfterSubmit (s : FormState) : FormState :=
  { s with
    title := ""
    description := ""
    date := { day := "", month := "", year := "" }
    price := ""
    location := ""
    selectedFile := none
    selectedCondition := none }

/-- `handleSubmit` of SellItem.jsx lines 137-257.  `now` stands for
`Date.now()`, `resolveURL` for `getDownloadURL` applied to the uploaded
reference, and `outcome` selects which callback of `uploadTask.on` fires.
Returns the final component state and the list of emitted effects in
program order. -/
def handleSubmit (now : Nat) (resolveURL : String → String) (outcome : UploadOutcome)
    (s : FormState) : FormState × List Effect :=
  match s.selectedFile with
  | none => (s, [Effect.alert "Please upload a product image"])
  | some fileName =>
    let v := runValidation s
    if v.2 then (v.1, [])
    else
      let key := uploadKey now fileName
      match outcome with
      | UploadOutcome.failure =>
          (v.1, [Effect.uploadAsset key, Effect.alert "Error uploading image"])
      | UploadOutcome.success =>
          let downloadURL := resolveURL key
          (resetAfterSubmit v.1,
           [Effect.uploadAsset key,
            Effect.createRecord (mkRecord v.1 downloadURL),
            Effect.navigate "./ItemPostedPage"])

/-- A character of the local part of the email regex: `[a-zA-Z0-9._%+-]`. -/
def isEmailLocalChar (c : Char) : Bool :=
  c.isAlpha || c.isDigit || c = '.' || c = '_' || c = '%' || c = '+' || c = '-'

/-- A character of the domain part of the email regex: `[a-zA-Z0-9.-]`. -/
def isEmailDomainChar (c : Char) : Bool :=
  c.isAlpha || c.isDigit || c = '.' || c = '-'

/-- `/^[a-zA-Z0-9._%+-]+@[a-zA-Z0-9.-]+\.[a-zA-Z]{2,}$/.test(email)` of
SellItem.jsx line 129.  None of the three character classes admits `@`, so a
match needs exactly one `@`; the top-level-domain class admits no dot, so the
separating dot of a match is the last dot after the `@`. -/
def matchesEmailRegex (s : String) : Bool :=
  match s.data.splitOn '@' with
  | [localPart, domainPart] =>
    let tld := (domainPart.reverse.takeWhile (fun c => !(c = '.'))).reverse
    match domainPart.reverse.dropWhile (fun c => !(c = '.')) with
    | '.' :: midRev =>
        !localPart.isEmpty && localPart.all isEmailLocalChar &&
          !midRev.isEmpty && midRev.all isEmailDomainChar &&
          decide (2 ≤ tld.length) && tld.all Char.isAlpha
    | _ => false
  | _ => false

/-- `handleSaveName` of SellItem.jsx lines 119-126. -/
def handleSaveName (s : FormState) : FormState :=
  if isBlank s.name then { s with nameError := "Name is required" }
  else { s with nameError := "", isEditingName := false }

/-- `handleSaveEmail` of SellItem.jsx lines 128-135. -/
def handleSaveEmail (s : FormState) : FormState :=
  if isBlank s.email || !matchesEmailRegex s.email then
    { s with emailError := "Please enter a valid email" }
  else { s with emailError := "", isEditingEmail := false }

/-- The user-driven events of the rendered `SellItem` form: the field
`onChange` handlers, the condition buttons, the file picker, the
seller-identity edit/save controls, the auth-state prefill, and a submit
click (carrying the clock, the URL resolution and the upload outcome of the
run it triggers). -/
inductive Event where
  | editTitle (v : String)
  | editDescription (v : String)
  | selectCategory (v : String)
  | clickCondition (label : String)
  | editPrice (v : String)
  | editLocation (v : String)
  | chooseFile (fileName : String)
  | startEditName
  | editName (v : String)
  | saveName
  | startEditEmail
  | editEmail (v : String)
  | saveEmail
  | authUser (profileExists : Bool) (profileName : String) (userEmail : String)
  | submit (now : Nat) (resolveURL : String → String) (outcome : UploadOutcome)

/-- One step of the form: the state update and effects each event's handler
performs.  The title handler (line 293) only sets the title; description,
category, condition, price and location handlers also clear their own error
slot; the name/email inputs exist only while the corresponding edit toggle
is on and only set the value; the auth observer prefills name and email per
lines 104-113 (`data.name || user.email` falls back on a blank profile
name). -/
def applyEvent (s : FormState) : Event → FormState × List Effect
  | Event.editTitle v => ({ s with title := v }, [])
  | Event.editDescription v => ({ s with description := v, descriptionError := "" }, [])
  | Event.selectCategory v => ({ s with selectedCategory := v, categoryError := "" }, [])
  | Event.clickCondition label =>
      ({ s with selectedCondition := some label, conditionError := "" }, [])
  | Event.editPrice v => ({ s with price := v, priceError := "" }, [])
  | Event.editLocation v => ({ s with location := v, locationError := "" }, [])
  | Event.chooseFile fileName => ({ s with selectedFile := some fileName }, [])
  | Event.startEditName => ({ s with isEditingName := true }, [])
  | Event.editName v => (if s.isEditingName then { s with name := v } else s, [])
  | Event.saveName => (handleSaveName s, [])
  | Event.startEditEmail => ({ s with isEditingEmail := true }, [])
  | Event.editEmail v => (if s.isEditingEmail then { s with email := v } else s, [])
  | Event.saveEmail => (handleSaveEmail s, [])
  | Event.authUser profileExists profileName userEmail =>
      (if profileExists then
         { s with name := if profileName = "" then userEmail else profileName,
                  email := userEmail }
       else { s with name := "Guest" }, [])
  | Event.submit now resolveURL outcome => handleSubmit now resolveURL outcome s

/-- Run a sequence of events from a state, accumulating effects in order. -/
def applyEvents (s : FormState) : List Event → FormState × List Effect
  | [] => (s, [])
  | e :: rest =>
    let r1 := applyEvent s e
    let r2 := applyEvents r1.1 rest
    (r2.1, r1.2 ++ r2.2)

/-- The `useState` state of `PrivateRoute`: the `loading` flag and the
delivered user (a uid when present). -/
structure GateState where
  loading : Bool
  user : Option String
deriving DecidableEq, Repr

/-- Initial gate state: `loading = true`, `user = null`. -/
def gateInit : GateState where
  loading := true
  user := none

/-- The `onAuthStateChanged` callback of PrivateRoute.jsx lines 11-14:
store the delivered identity (present or absent) and clear `loading`. -/
def gateStep (s : GateState) (signal : Option String) : GateState :=
  { s with user := signal, loading := false }

/-- What the gate renders: nothing, the wrapped children, or a redirect. -/
inductive Render where
  | nothing
  | content
  | redirect (path : String)
deriving DecidableEq, Repr

/-- The render logic of PrivateRoute.jsx lines 18-20: `null` while loading,
else the children when a user is present, else `<Navigate to="/login" />`. -/
def gateRender (s : GateState) : Render :=
  if s.loading then Render.nothing
  else match s.user with
       | some _ => Render.content
       | none => Render.redirect "/login"

/-- The sequential validation block computes, slot by slot, `checkedState`,
and its `hasError` flag is the disjunction `hasErrorB`. -/
theorem runValidation_eq (s : FormState) : runValidation s = (checkedState s, hasErrorB s) := by
  by_cases h1 : isBlank s.title = true <;>
    by_cases h2 : isBlank s.description = true <;>
    by_cases h3 : priceRejected s.price = true <;>
    by_cases h4 : isBlank s.location = true <;>
    by_cases h5 : s.selectedCondition = none <;>
    by_cases h6 : s.selectedCategory = "" <;>
    by_cases h7 : s.isEditingEmail = true <;>
    by_cases h8 : s.isEditingName = true <;>
    simp [runValidation, clearFieldErrors, checkedState, hasErrorB, h1, h2, h3, h4, h5, h6, h7, h8]

/-- A decimal digit is not a whitespace character. -/
theorem isDigit_not_whitespace (c : Char) (h : c.isDigit = true) : c.isWhitespace = false := by
  by_contra hw
  rw [Bool.not_eq_false] at hw
  simp only [Char.isWhitespace, Bool.or_eq_true, decide_eq_true_eq] at hw
  rcases hw with ((rfl | rfl) | rfl) | rfl <;> simp [Char.isDigit] at h

/-- A string matching the price regex starts with a digit, so it is not
blank: the `!price.trim()` disjunct never fires on a regex match. -/
theorem matchesPriceRegex_not_blank (p : String) (h : matchesPriceRegex p = true) :
    isBlank p = false := by
  unfold matchesPriceRegex at h
  unfold isBlank
  cases hd : p.data with
  | nil => rw [hd] at h; simp [matchesPriceList] at h
  | cons c cs =>
    rw [hd] at h
    simp only [matchesPriceList, Bool.and_eq_true] at h
    simp [List.all_cons, isDigit_not_whitespace c h.1]

/-- Claim C2: the submission validator accepts a price string iff it matches
`^\d+(\.\d{1,2})?$` and its numeric value is strictly positive; on rejection
(with an image attached) the price error slot is set to its message. -/
theorem price_validation_iff :
    (∀ p : String, priceRejected p = false ↔ (matchesPriceRegex p = true ∧ 0 < priceValue p)) ∧
    (∀ (now : Nat) (resolveURL : String → String) (outcome : UploadOutcome) (s : FormState)
        (fileName : String), s.selectedFile = some fileName → priceRejected s.price = true →
      ((handleSubmit now resolveURL outcome s).1).priceError =
        "Enter a valid price (positive number, up to two decimals)") := by
  constructor
  · intro p
    constructor
    · intro h
      simp only [priceRejected, Bool.or_eq_false_iff, Bool.not_eq_false',
        decide_eq_false_iff_not] at h
      exact ⟨h.1.2, lt_of_not_le h.2⟩
    · rintro ⟨hm, hv⟩
      simp [priceRejected, matchesPriceRegex_not_blank p hm, hm, not_le.mpr hv]
  · intro now resolveURL outcome s fileName hf hp
    have hv : hasErrorB s = true := by simp [hasErrorB, hp]
    simp [handleSubmit, hf, runValidation_eq, hv, checkedState, hp]

/-- Witness for C2: the price string "0.75" is accepted, and a concrete
draft carrying the rejected price "abc" gets the price error message. -/
theorem price_validation_iff_witness :
    (priceRejected "0.75" = false ↔ (matchesPriceRegex "0.75" = true ∧ 0 < priceValue "0.75")) ∧
    ((handleSubmit 3 (fun k => k) UploadOutcome.success
        { initialFormState with selectedFile := some "img.png", price := "abc" }).1).priceError =
      "Enter a valid price (positive number, up to two decimals)" :=
  ⟨price_validation_iff.1 "0.75",
   price_validation_iff.2 3 (fun k => k) UploadOutcome.success
     { initialFormState with selectedFile := some "img.png", price := "abc" } "img.png"
     rfl (by decide)⟩

/-- Claim C4: a submit attempt without an attached image is blocked with a
blocking alert, with the state untouched (no error slot cleared or set) and
no other effect (no upload, no record creation) emitted. -/
theorem submit_without_image_blocked (now : Nat) (resolveURL : String → String)
    (outcome : UploadOutcome) (s : FormState) (h : s.selectedFile = none) :
    handleSubmit now resolveURL outcome s = (s, [Effect.alert "Please upload a product image"]) := by
  unfold handleSubmit
  rw [h]

/-- Witness for C4: the pristine form has no file attached, and submitting it
leaves the state unchanged and emits only the alert. -/
theorem submit_without_image_blocked_witness :
    handleSubmit 7 (fun k => k) UploadOutcome.success initialFormState =
      (initialFormState, [Effect.alert "Please upload a product image"]) :=
  submit_without_image_blocked 7 (fun k => k) UploadOutcome.success initialFormState rfl

/-- Claim C7: the session gate renders nothing (and no redirect) in its
initial unresolved state, renders the wrapped content whenever a present
identity is delivered, redirects to /login whenever an absent identity is
delivered, and does so under both delivery orderings. -/
theorem session_gate_behavior :
    gateRender gateInit = Render.nothing ∧
    (∀ (s : GateState) (u : String), gateRender (gateStep s (some u)) = Render.content) ∧
    (∀ s : GateState, gateRender (gateStep s none) = Render.redirect "/login") ∧
    (∀ u : String, gateRender (gateStep (gateStep gateInit none) (some u)) = Render.content) ∧
    (∀ u : String, gateRender (gateStep (gateStep gateInit (some u)) none) =
      Render.redirect "/login") :=
  ⟨rfl, fun _ _ => rfl, fun _ => rfl, fun _ => rfl, fun _ => rfl⟩

/-- Branch lemma: with no file attached, `handleSubmit` only alerts. -/
theorem handleSubmit_noFile (now : Nat) (resolveURL : String → String)
    (outcome : UploadOutcome) (s : FormState) (hf : s.selectedFile = none) :
    handleSubmit now resolveURL outcome s = (s, [Effect.alert "Please upload a product image"]) := by
  unfold handleSubmit
  rw [hf]

/-- Branch lemma: with a file attached and a failed validation, `handleSubmit`
stops after the checks with no effect. -/
theorem handleSubmit_hasError (now : Nat) (resolveURL : String → String)
    (outcome : UploadOutcome) (s : FormState) (fileName : String)
    (hf : s.selectedFile = some fileName) (he : hasErrorB s = true) :
    handleSubmit now resolveURL outcome s = (checkedState s, []) := by
  unfold handleSubmit
  rw [hf]
  simp [runValidation_eq, he]

/-- Branch lemma: with a file attached, validation passed and a failing
upload, `handleSubmit` uploads, alerts, and preserves the draft. -/
theorem handleSubmit_uploadFail (now : Nat) (resolveURL : String → String) (s : FormState)
    (fileName : String) (hf : s.selectedFile = some fileName) (he : hasErrorB s = false) :
    handleSubmit now resolveURL UploadOutcome.failure s =
      (checkedState s,
       [Effect.uploadAsset (uploadKey now fileName), Effect.alert "Error uploading image"]) := by
  unfold handleSubmit
  rw [hf]
  simp [runValidation_eq, he]

/-- Branch lemma: with a file attached, validation passed and a successful
upload, `handleSubmit` uploads, creates the record from the resolved
download location, navigates, and resets the draft. -/
theorem handleSubmit_success (now : Nat) (resolveURL : String → String) (s : FormState)
    (fileName : String) (hf : s.selectedFile = some fileName) (he : hasErrorB s = false) :
    handleSubmit now resolveURL UploadOutcome.success s =
      (resetAfterSubmit (checkedState s),
       [Effect.uploadAsset (uploadKey now fileName),
        Effect.createRecord (mkRecord (checkedState s) (resolveURL (uploadKey now fileName))),
        Effect.navigate "./ItemPostedPage"]) := by
  unfold handleSubmit
  rw [hf]
  simp [runValidation_eq, he]

/-- Claim C1: whenever a submit run creates a record, the upload succeeded,
the run's effects are exactly one upload followed by that one record creation
(then the navigation), the record's `imageUrl` is the resolved download
location of that very upload key, and `isSold` is `false`. -/
theorem publish_upload_then_record (now : Nat) (resolveURL : String → String)
    (outcome : UploadOutcome) (s : FormState) (r : ProductRecord)
    (hmem : Effect.createRecord r ∈ (handleSubmit now resolveURL outcome s).2) :
    outcome = UploadOutcome.success ∧
    ∃ fileName, s.selectedFile = some fileName ∧
      (handleSubmit now resolveURL outcome s).2 =
        [Effect.uploadAsset (uploadKey now fileName), Effect.createRecord r,
         Effect.navigate "./ItemPostedPage"] ∧
      r.imageUrl = resolveURL (uploadKey now fileName) ∧
      r.isSold = false := by
  cases hf : s.selectedFile with
  | none =>
    rw [handleSubmit_noFile now resolveURL outcome s hf] at hmem
    simp at hmem
  | some fileName =>
    cases he : hasErrorB s with
    | true =>
      rw [handleSubmit_hasError now resolveURL outcome s fileName hf he] at hmem
      simp at hmem
    | false =>
      cases outcome with
      | failure =>
        rw [handleSubmit_uploadFail now resolveURL s fileName hf he] at hmem
        simp at hmem
      | success =>
        rw [handleSubmit_success now resolveURL s fileName hf he] at hmem
        simp at hmem
        refine ⟨rfl, fileName, rfl, ?_, ?_, ?_⟩
        · rw [handleSubmit_success now resolveURL s fileName hf he, hmem]
        · rw [hmem]; rfl
        · rw [hmem]; rfl

/-- A fully valid draft used to exercise the success path concretely. -/
def validDraft : FormState :=
  { initialFormState with
    selectedFile := some "img.png"
    title := "Desk"
    description := "Oak desk"
    price := "10"
    location := "UW Bothell"
    selectedCondition := some "Good"
    selectedCategory := "Furniture" }

/-- Witness for C1: submitting `validDraft` with a successful upload creates
exactly the record whose `imageUrl` resolves the submitted upload key. -/
theorem publish_upload_then_record_witness :
    UploadOutcome.success = UploadOutcome.success ∧
    ∃ fileName, validDraft.selectedFile = some fileName ∧
      (handleSubmit 2 (fun k => "https://cdn/" ++ k) UploadOutcome.success validDraft).2 =
        [Effect.uploadAsset (uploadKey 2 fileName),
         Effect.createRecord
           (mkRecord (checkedState validDraft) ("https://cdn/" ++ uploadKey 2 "img.png")),
         Effect.navigate "./ItemPostedPage"] ∧
      (mkRecord (checkedState validDraft) ("https://cdn/" ++ uploadKey 2 "img.png")).imageUrl =
        (fun k => "https://cdn/" ++ k) (uploadKey 2 fileName) ∧
      (mkRecord (checkedState validDraft) ("https://cdn/" ++ uploadKey 2 "img.png")).isSold =
        false :=
  publish_upload_then_record 2 (fun k => "https://cdn/" ++ k) UploadOutcome.success validDraft
    (mkRecord (checkedState validDraft) ("https://cdn/" ++ uploadKey 2 "img.png")) (by decide)

/-- Claim C3: with an image attached, each of the six field checks writes its
own error slot independently of the others' outcomes, an attempt with
seller name or email mid-edit emits no effect, and any failed check leaves
the external store uncontacted (no effect at all). -/
theorem submit_checks_independent (now : Nat) (resolveURL : String → String)
    (outcome : UploadOutcome) (s : FormState) (fileName : String)
    (hf : s.selectedFile = some fileName) :
    ((handleSubmit now resolveURL outcome s).1).titleError =
        (if isBlank s.title then "Title is required" else "") ∧
    ((handleSubmit now resolveURL outcome s).1).descriptionError =
        (if isBlank s.description then "Description is required" else "") ∧
    ((handleSubmit now resolveURL outcome s).1).priceError =
        (if priceRejected s.price then "Enter a valid price (positive number, up to two decimals)"
         else "") ∧
    ((handleSubmit now resolveURL outcome s).1).locationError =
        (if isBlank s.location then "Location is required" else "") ∧
    ((handleSubmit now resolveURL outcome s).1).conditionError =
        (if s.selectedCondition = none then "Please select a condition for the product." else "") ∧
    ((handleSubmit now resolveURL outcome s).1).categoryError =
        (if s.selectedCategory = "" then "Please select a category for the product." else "") ∧
    (s.isEditingName = true ∨ s.isEditingEmail = true →
      (handleSubmit now resolveURL outcome s).2 = []) ∧
    (hasErrorB s = true → (handleSubmit now resolveURL outcome s).2 = []) := by
  cases he : hasErrorB s with
  | true =>
    rw [handleSubmit_hasError now resolveURL outcome s fileName hf he]
    exact ⟨rfl, rfl, rfl, rfl, rfl, rfl, fun _ => rfl, fun _ => rfl⟩
  | false =>
    have hn : s.isEditingName = false := by
      by_contra hx
      rw [Bool.not_eq_false] at hx
      simp [hasErrorB, hx] at he
    have hm : s.isEditingEmail = false := by
      by_contra hx
      rw [Bool.not_eq_false] at hx
      simp [hasErrorB, hx] at he
    have hne : ¬(s.isEditingName = true ∨ s.isEditingEmail = true) := by
      rintro (hx | hx) <;> simp_all
    cases outcome with
    | failure =>
      rw [handleSubmit_uploadFail now resolveURL s fileName hf he]
      exact ⟨rfl, rfl, rfl, rfl, rfl, rfl, fun hx => absurd hx hne,
        fun hx => absurd hx (by simp [he])⟩
    | success =>
      rw [handleSubmit_success now resolveURL s fileName hf he]
      exact ⟨rfl, rfl, rfl, rfl, rfl, rfl, fun hx => absurd hx hne,
        fun hx => absurd hx (by simp [he])⟩

/-- A draft with a blank title and the email inline-edit open, to exercise a
failing attempt concretely. -/
def mixedDraft : FormState :=
  { initialFormState with
    selectedFile := some "img.png"
    description := "Oak desk"
    price := "10"
    location := "UW Bothell"
    selectedCondition := some "Fair"
    selectedCategory := "Books"
    isEditingEmail := true }

/-- Witness for C3: on `mixedDraft` the blank title sets its own message,
every other check leaves its slot clear, and the attempt (failing on title
and on the open email edit) emits no effect. -/
theorem submit_checks_independent_witness :
    ((handleSubmit 4 (fun k => k) UploadOutcome.success mixedDraft).1).titleError =
        "Title is required" ∧
    ((handleSubmit 4 (fun k => k) UploadOutcome.success mixedDraft).1).descriptionError = "" ∧
    ((handleSubmit 4 (fun k => k) UploadOutcome.success mixedDraft).1).priceError = "" ∧
    ((handleSubmit 4 (fun k => k) UploadOutcome.success mixedDraft).1).locationError = "" ∧
    ((handleSubmit 4 (fun k => k) UploadOutcome.success mixedDraft).1).conditionError = "" ∧
    ((handleSubmit 4 (fun k => k) UploadOutcome.success mixedDraft).1).categoryError = "" ∧
    (mixedDraft.isEditingName = true ∨ mixedDraft.isEditingEmail = true →
      (handleSubmit 4 (fun k => k) UploadOutcome.success mixedDraft).2 = []) ∧
    (hasErrorB mixedDraft = true →
      (handleSubmit 4 (fun k => k) UploadOutcome.success mixedDraft).2 = []) :=
  submit_checks_independent 4 (fun k => k) UploadOutcome.success mixedDraft "img.png" rfl

/-- Claim C6: every submit run that creates a record resets title,
description, price, location, image, condition and the date triple to their
initial values, while the seller name and email keep their values. -/
theorem post_success_reset (now : Nat) (resolveURL : String → String)
    (outcome : UploadOutcome) (s : FormState) (r : ProductRecord)
    (hmem : Effect.createRecord r ∈ (handleSubmit now resolveURL outcome s).2) :
    ((handleSubmit now resolveURL outcome s).1).title = "" ∧
    ((handleSubmit now resolveURL outcome s).1).description = "" ∧
    ((handleSubmit now resolveURL outcome s).1).price = "" ∧
    ((handleSubmit now resolveURL outcome s).1).location = "" ∧
    ((handleSubmit now resolveURL outcome s).1).selectedFile = none ∧
    ((handleSubmit now resolveURL outcome s).1).selectedCondition = none ∧
    ((handleSubmit now resolveURL outcome s).1).date = { day := "", month := "", year := "" } ∧
    ((handleSubmit now resolveURL outcome s).1).name = s.name ∧
    ((handleSubmit now resolveURL outcome s).1).email = s.email := by
  cases hf : s.selectedFile with
  | none =>
    rw [handleSubmit_noFile now resolveURL outcome s hf] at hmem
    simp at hmem
  | some fileName =>
    cases he : hasErrorB s with
    | true =>
      rw [handleSubmit_hasError now resolveURL outcome s fileName hf he] at hmem
      simp at hmem
    | false =>
      cases outcome with
      | failure =>
        rw [handleSubmit_uploadFail now resolveURL s fileName hf he] at hmem
        simp at hmem
      | success =>
        rw [handleSubmit_success now resolveURL s fileName hf he]
        exact ⟨rfl, rfl, rfl, rfl, rfl, rfl, rfl, rfl, rfl⟩

/-- Witness for C6: the successful submission of `validDraft` resets the
product fields and keeps the seller identity. -/
theorem post_success_reset_witness :
    ((handleSubmit 2 (fun k => "https://cdn/" ++ k) UploadOutcome.success validDraft).1).title =
        "" ∧
    ((handleSubmit 2 (fun k => "https://cdn/" ++ k) UploadOutcome.success
        validDraft).1).description = "" ∧
    ((handleSubmit 2 (fun k => "https://cdn/" ++ k) UploadOutcome.success validDraft).1).price =
        "" ∧
    ((handleSubmit 2 (fun k => "https://cdn/" ++ k) UploadOutcome.success
        validDraft).1).location = "" ∧
    ((handleSubmit 2 (fun k => "https://cdn/" ++ k) UploadOutcome.success
        validDraft).1).selectedFile = none ∧
    ((handleSubmit 2 (fun k => "https://cdn/" ++ k) UploadOutcome.success
        validDraft).1).selectedCondition = none ∧
    ((handleSubmit 2 (fun k => "https://cdn/" ++ k) UploadOutcome.success validDraft).1).date =
        { day := "", month := "", year := "" } ∧
    ((handleSubmit 2 (fun k => "https://cdn/" ++ k) UploadOutcome.success validDraft).1).name =
        validDraft.name ∧
    ((handleSubmit 2 (fun k => "https://cdn/" ++ k) UploadOutcome.success validDraft).1).email =
        validDraft.email :=
  post_success_reset 2 (fun k => "https://cdn/" ++ k) UploadOutcome.success validDraft
    (mkRecord (checkedState validDraft) ("https://cdn/" ++ uploadKey 2 "img.png")) (by decide)

/-- Claim C10: a submit run that creates a record leaves the selected
category untouched: the post-success reset never clears it. -/
theorem category_not_reset (now : Nat) (resolveURL : String → String)
    (outcome : UploadOutcome) (s : FormState) (r : ProductRecord)
    (hmem : Effect.createRecord r ∈ (handleSubmit now resolveURL outcome s).2) :
    ((handleSubmit now resolveURL outcome s).1).selectedCategory = s.selectedCategory := by
  cases hf : s.selectedFile with
  | none =>
    rw [handleSubmit_noFile now resolveURL outcome s hf] at hmem
    simp at hmem
  | some fileName =>
    cases he : hasErrorB s with
    | true =>
      rw [handleSubmit_hasError now resolveURL outcome s fileName hf he] at hmem
      simp at hmem
    | false =>
      cases outcome with
      | failure =>
        rw [handleSubmit_uploadFail now resolveURL s fileName hf he] at hmem
        simp at hmem
      | success =>
        rw [handleSubmit_success now resolveURL s fileName hf he]
        rfl

/-- Witness for C10: after `validDraft`'s successful submission the category
is still "Furniture". -/
theorem category_not_reset_witness :
    ((handleSubmit 6 (fun k => "https://cdn/" ++ k) UploadOutcome.success
        validDraft).1).selectedCategory = validDraft.selectedCategory :=
  category_not_reset 6 (fun k => "https://cdn/" ++ k) UploadOutcome.success validDraft
    (mkRecord (checkedState validDraft) ("https://cdn/" ++ uploadKey 6 "img.png")) (by decide)

/-- A fully valid draft carrying stale seller-identity error messages. -/
def staleIdentityDraft : FormState :=
  { initialFormState with
    selectedFile := some "img.png"
    title := "Lamp"
    description := "Desk lamp"
    price := "10"
    location := "UW Bothell"
    selectedCondition := some "Good"
    selectedCategory := "Electronics"
    nameError := "stale name"
    emailError := "stale email" }

/-- Counterexample to C5: on a submit attempt with an image attached and the
seller-identity fields not in edit mode, the name and email error slots are
not cleared — the stale messages survive the whole (successful) run, so they
were never cleared before validation. -/
theorem identity_error_slots_not_cleared :
    staleIdentityDraft.isEditingName = false ∧
    staleIdentityDraft.isEditingEmail = false ∧
    ((handleSubmit 1 (fun k => k) UploadOutcome.success staleIdentityDraft).1).nameError =
      "stale name" ∧
    ((handleSubmit 1 (fun k => k) UploadOutcome.success staleIdentityDraft).1).emailError =
      "stale email" := by
  decide

/-- Claim C5 as amended: at the start of a submit attempt with an image
attached, the six product-field error slots (title, description, price,
location, condition, category) are cleared before the checks run — their
final values depend only on their own checks, not on previous contents —
while the seller-name and seller-email slots are left unchanged (when the
corresponding inline edit is not open). -/
theorem submit_clears_product_error_slots (now : Nat) (resolveURL : String → String)
    (outcome : UploadOutcome) (s : FormState) (fileName : String)
    (hf : s.selectedFile = some fileName)
    (hn : s.isEditingName = false) (hm : s.isEditingEmail = false) :
    ((handleSubmit now resolveURL outcome s).1).nameError = s.nameError ∧
    ((handleSubmit now resolveURL outcome s).1).emailError = s.emailError ∧
    ((handleSubmit now resolveURL outcome s).1).titleError =
        (if isBlank s.title then "Title is required" else "") ∧
    ((handleSubmit now resolveURL outcome s).1).descriptionError =
        (if isBlank s.description then "Description is required" else "") ∧
    ((handleSubmit now resolveURL outcome s).1).priceError =
        (if priceRejected s.price then "Enter a valid price (positive number, up to two decimals)"
         else "") ∧
    ((handleSubmit now resolveURL outcome s).1).locationError =
        (if isBlank s.location then "Location is required" else "") ∧
    ((handleSubmit now resolveURL outcome s).1).conditionError =
        (if s.selectedCondition = none then "Please select a condition for the product." else "") ∧
    ((handleSubmit now resolveURL outcome s).1).categoryError =
        (if s.selectedCategory = "" then "Please select a category for the product." else "") := by
  have hslot : ∀ t : FormState, t = checkedState s ∨ t = resetAfterSubmit (checkedState s) →
      t.nameError = s.nameError ∧ t.emailError = s.emailError := by
    rintro t (rfl | rfl) <;> constructor <;> simp [checkedState, resetAfterSubmit, hn, hm]
  cases he : hasErrorB s with
  | true =>
    rw [handleSubmit_hasError now resolveURL outcome s fileName hf he]
    exact ⟨(hslot _ (Or.inl rfl)).1, (hslot _ (Or.inl rfl)).2, rfl, rfl, rfl, rfl, rfl, rfl⟩
  | false =>
    cases outcome with
    | failure =>
      rw [handleSubmit_uploadFail now resolveURL s fileName hf he]
      exact ⟨(hslot _ (Or.inl rfl)).1, (hslot _ (Or.inl rfl)).2, rfl, rfl, rfl, rfl, rfl, rfl⟩
    | success =>
      rw [handleSubmit_success now resolveURL s fileName hf he]
      exact ⟨(hslot _ (Or.inr rfl)).1, (hslot _ (Or.inr rfl)).2, rfl, rfl, rfl, rfl, rfl, rfl⟩

/-- Witness for amended C5: on `staleIdentityDraft` the identity slots keep
their stale contents and the six product slots end clear. -/
theorem submit_clears_product_error_slots_witness :
    ((handleSubmit 9 (fun k => k) UploadOutcome.success staleIdentityDraft).1).nameError =
        staleIdentityDraft.nameError ∧
    ((handleSubmit 9 (fun k => k) UploadOutcome.success staleIdentityDraft).1).emailError =
        staleIdentityDraft.emailError ∧
    ((handleSubmit 9 (fun k => k) UploadOutcome.success staleIdentityDraft).1).titleError = "" ∧
    ((handleSubmit 9 (fun k => k) UploadOutcome.success staleIdentityDraft).1).descriptionError =
        "" ∧
    ((handleSubmit 9 (fun k => k) UploadOutcome.success staleIdentityDraft).1).priceError = "" ∧
    ((handleSubmit 9 (fun k => k) UploadOutcome.success staleIdentityDraft).1).locationError =
        "" ∧
    ((handleSubmit 9 (fun k => k) UploadOutcome.success staleIdentityDraft).1).conditionError =
        "" ∧
    ((handleSubmit 9 (fun k => k) UploadOutcome.success staleIdentityDraft).1).categoryError =
        "" :=
  submit_clears_product_error_slots 9 (fun k => k) UploadOutcome.success staleIdentityDraft
    "img.png" rfl rfl rfl

/-- A form state with the seller-name inline edit open and a pending name
error message. -/
def editingNameState : FormState :=
  { initialFormState with isEditingName := true, nameError := "Name is required" }

/-- Counterexample to C9: the seller-name setter is also a field setter whose
edit does not clear its own error slot — the title setter is not the only
exception. -/
theorem name_setter_keeps_error_slot :
    ((applyEvent editingNameState (Event.editName "Bob")).1).name = "Bob" ∧
    ((applyEvent editingNameState (Event.editName "Bob")).1).nameError = "Name is required" := by
  decide

/-- Claim C9 as amended: the description, price, location, condition and
category setters each clear their own error slot when edited, while the
title, seller-name and seller-email setters leave their own error slots
unchanged (the name/email slots are cleared only by their Save actions). -/
theorem field_setters_error_clearing (s : FormState) (v : String) :
    ((applyEvent s (Event.editDescription v)).1).descriptionError = "" ∧
    ((applyEvent s (Event.editPrice v)).1).priceError = "" ∧
    ((applyEvent s (Event.editLocation v)).1).locationError = "" ∧
    ((applyEvent s (Event.selectCategory v)).1).categoryError = "" ∧
    ((applyEvent s (Event.clickCondition v)).1).conditionError = "" ∧
    ((applyEvent s (Event.editTitle v)).1).titleError = s.titleError ∧
    ((applyEvent s (Event.editName v)).1).nameError = s.nameError ∧
    ((applyEvent s (Event.editEmail v)).1).emailError = s.emailError := by
  refine ⟨rfl, rfl, rfl, rfl, rfl, rfl, ?_, ?_⟩
  · cases hn : s.isEditingName <;> simp [applyEvent, hn]
  · cases hm : s.isEditingEmail <;> simp [applyEvent, hm]

/-- The initial (and, as proved below, perpetual) value of the `date`
state. -/
def emptyDate : DateTriple where
  day := ""
  month := ""
  year := ""

/-- A submit run from a state with the empty date triple keeps it empty and
only ever creates records whose `dateOfPurchase` is the template rendering
"//" of the empty triple. -/
theorem handleSubmit_date (now : Nat) (resolveURL : String → String) (outcome : UploadOutcome)
    (s : FormState) (h : s.date = emptyDate) :
    ((handleSubmit now resolveURL outcome s).1).date = emptyDate ∧
    ∀ r : ProductRecord, Effect.createRecord r ∈ (handleSubmit now resolveURL outcome s).2 →
      r.dateOfPurchase = "//" := by
  cases hf : s.selectedFile with
  | none =>
    rw [handleSubmit_noFile now resolveURL outcome s hf]
    exact ⟨h, by intro r hr; simp at hr⟩
  | some fileName =>
    cases he : hasErrorB s with
    | true =>
      rw [handleSubmit_hasError now resolveURL outcome s fileName hf he]
      exact ⟨h, by intro r hr; simp at hr⟩
    | false =>
      cases outcome with
      | failure =>
        rw [handleSubmit_uploadFail now resolveURL s fileName hf he]
        exact ⟨h, by intro r hr; simp at hr⟩
      | success =>
        rw [handleSubmit_success now resolveURL s fileName hf he]
        refine ⟨rfl, ?_⟩
        intro r hr
        simp at hr
        rw [hr]
        have hd : (checkedState s).date = emptyDate := h
        simp only [mkRecord, hd]
        rfl

/-- Every form event preserves the empty date triple (no handler writes the
`date` state), and any record it creates renders the empty triple. -/
theorem applyEvent_date (s : FormState) (e : Event) (h : s.date = emptyDate) :
    ((applyEvent s e).1).date = emptyDate ∧
    ∀ r : ProductRecord, Effect.createRecord r ∈ (applyEvent s e).2 →
      r.dateOfPurchase = "//" := by
  cases e with
  | submit now resolveURL outcome => exact handleSubmit_date now resolveURL outcome s h
  | editName v =>
    refine ⟨?_, by intro r hr; simp [applyEvent] at hr⟩
    cases hn : s.isEditingName <;> simp [applyEvent, hn, h]
  | editEmail v =>
    refine ⟨?_, by intro r hr; simp [applyEvent] at hr⟩
    cases hm : s.isEditingEmail <;> simp [applyEvent, hm, h]
  | saveName =>
    refine ⟨?_, by intro r hr; simp [applyEvent] at hr⟩
    by_cases hb : isBlank s.name = true <;> simp [applyEvent, handleSaveName, hb, h]
  | saveEmail =>
    refine ⟨?_, by intro r hr; simp [applyEvent] at hr⟩
    by_cases hb : (isBlank s.email || !matchesEmailRegex s.email) = true <;>
      simp [applyEvent, handleSaveEmail, hb, h]
  | authUser profileExists profileName userEmail =>
    refine ⟨?_, by intro r hr; simp [applyEvent] at hr⟩
    cases profileExists <;> simp [applyEvent, h]
  | editTitle v => exact ⟨h, by intro r hr; simp [applyEvent] at hr⟩
  | editDescription v => exact ⟨h, by intro r hr; simp [applyEvent] at hr⟩
  | selectCategory v => exact ⟨h, by intro r hr; simp [applyEvent] at hr⟩
  | clickCondition label => exact ⟨h, by intro r hr; simp [applyEvent] at hr⟩
  | editPrice v => exact ⟨h, by intro r hr; simp [applyEvent] at hr⟩
  | editLocation v => exact ⟨h, by intro r hr; simp [applyEvent] at hr⟩
  | chooseFile fileName => exact ⟨h, by intro r hr; simp [applyEvent] at hr⟩
  | startEditName => exact ⟨h, by intro r hr; simp [applyEvent] at hr⟩
  | startEditEmail => exact ⟨h, by intro r hr; simp [applyEvent] at hr⟩

/-- Along any event sequence from a state with the empty date triple, the
triple stays empty and every created record carries "//". -/
theorem applyEvents_date (evs : List Event) (s : FormState) (h : s.date = emptyDate) :
    ((applyEvents s evs).1).date = emptyDate ∧
    ∀ r : ProductRecord, Effect.createRecord r ∈ (applyEvents s evs).2 →
      r.dateOfPurchase = "//" := by
  induction evs generalizing s with
  | nil => exact ⟨h, by intro r hr; simp [applyEvents] at hr⟩
  | cons e rest ih =>
    have h1 := applyEvent_date s e h
    have h2 := ih (applyEvent s e).1 h1.1
    constructor
    · exact h2.1
    · intro r hr
      simp only [applyEvents, List.mem_append] at hr
      rcases hr with hr | hr
      · exact h1.2 r hr
      · exact h2.2 r hr

/-- Claim C8: the date-of-purchase triple is never validated (the
validation's outcome is invariant under any date value), and no user-entered
day/month/year data can reach a created record: along every event sequence
from the initial state the triple stays empty, so every persisted record's
`dateOfPurchase` is the constant rendering "//". -/
theorem date_of_purchase_inert :
    (∀ (s : FormState) (d : DateTriple),
      (runValidation { s with date := d }).2 = (runValidation s).2) ∧
    (∀ evs : List Event, ((applyEvents initialFormState evs).1).date = emptyDate) ∧
    (∀ (evs : List Event) (r : ProductRecord),
      Effect.createRecord r ∈ (applyEvents initialFormState evs).2 →
        r.dateOfPurchase = "//") := by
  refine ⟨?_, ?_, ?_⟩
  · intro s d
    rw [runValidation_eq, runValidation_eq]
    simp [hasErrorB]
  · intro evs
    exact (applyEvents_date evs initialFormState rfl).1
  · intro evs r hr
    exact (applyEvents_date evs initialFormState rfl).2 r hr

/-- A full sell flow: fill every field, attach an image, submit
successfully. -/
def sellFlowEvents : List Event :=
  [Event.editTitle "Desk", Event.editDescription "Oak desk", Event.editPrice "10",
   Event.editLocation "UW Bothell", Event.clickCondition "Good",
   Event.selectCategory "Furniture", Event.chooseFile "img.png",
   Event.submit 2 (fun k => "https://cdn/" ++ k) UploadOutcome.success]

/-- Witness for C8: the record created by the concrete sell flow carries the
constant date rendering "//". -/
theorem date_of_purchase_inert_witness :
    (mkRecord (checkedState validDraft)
        ("https://cdn/" ++ uploadKey 2 "img.png")).dateOfPurchase = "//" :=
  date_of_purchase_inert.2.2 sellFlowEvents
    (mkRecord (checkedState validDraft) ("https://cdn/" ++ uploadKey 2 "img.png")) (by decide)
